import Mathlib

/-!
Shallow embedding of src/src/crypto_vfs.c: the SQLCipher VFS shim that
reserves a header region at the start of a file and offsets all I/O past it.

Machine integers are modelled as Nat (u32 fields, buffer bytes) and Int
(sqlite3_int64 offsets, sizes, result codes).  The underlying sqlite3_file
function-pointer table is modelled as a record of operations UnderOps over an
abstract underlying-file state, mirroring p-pReal-pMethods indirection; a
concrete byte-store instance RealFile serves for concrete scenarios.
-/

/-- SQLite result codes used by the shim (sqlite3.h). -/
def SQLITE_OK : Int := 0

/-- SQLITE_NOMEM result code. -/
def SQLITE_NOMEM : Int := 7

/-- SQLITE_NOTFOUND result code. -/
def SQLITE_NOTFOUND : Int := 12

/-- SQLITE_IOERR_SHORT_READ result code, returned by a read past EOF. -/
def SQLITE_IOERR_SHORT_READ : Int := 522

/-- The 32-byte magic constant sqlcipherMagic (crypto_vfs.c lines 13-18). -/
def sqlcipherMagicBytes : List Nat :=
  [0xB0, 0x08, 0xA6, 0x79, 0x75, 0x7E, 0x3E, 0x9E,
   0xF3, 0x00, 0x58, 0xDD, 0xB8, 0x9D, 0xE2, 0x3B,
   0x7D, 0x92, 0xDA, 0xAF, 0xE0, 0x11, 0x0A, 0x5F,
   0x05, 0x76, 0x4A, 0xF6, 0xED, 0x9D, 0xE4, 0x84]

/-- SQLCIPHER_MAGIC_SZ (crypto_vfs.c line 42). -/
def SQLCIPHER_MAGIC_SZ : Nat := 32

/-- SQLCIPHER_MIN_HDR_SZ = SQLCIPHER_MAGIC_SZ + sizeof(u32) = 36
(crypto_vfs.c line 43). -/
def SQLCIPHER_MIN_HDR_SZ : Nat := SQLCIPHER_MAGIC_SZ + 4

/-- Per-handle state of a sqlcipherVfs_file: the flag and u32 fields the shim
reads and writes (declared in sqlcipher.h, manipulated throughout
crypto_vfs.c).  Bytes of pReal are carried separately as the underlying
state. -/
structure SqlcipherVfsFile where
  use_header : Bool
  needs_write : Bool
  did_read : Bool
  reserve_sz : Nat
  version : Nat
  page_sz : Nat
  kdf_iter : Nat
  fast_kdf_iter : Nat
  flags : Nat
deriving Repr, DecidableEq

/-- Operation table of the underlying sqlite3_file (pReal-pMethods): the five
operations crypto_vfs.c invokes on it.  Fallible operations return
Except Int carrying the nonzero SQLite error code on failure. -/
structure UnderOps (σ : Type) where
  xRead : σ → Nat → Int → Except Int (List Nat)
  xWrite : σ → List Nat → Int → Except Int σ
  xTruncate : σ → Int → Except Int σ
  xFileSize : σ → Int × Int
  xSectorSize : σ → Nat

/-- Big-endian 4-byte load sqlite3Get4byte: p[0]*2^24 + p[1]*2^16 + p[2]*2^8
+ p[3].  Out-of-buffer bytes default to 0 (the C reads whatever memory holds;
the in-bounds obligation is tracked separately by the access-offset model). -/
def get4 (b : List Nat) (i : Nat) : Nat :=
  b.getD i 0 * 16777216 + b.getD (i + 1) 0 * 65536 + b.getD (i + 2) 0 * 256 + b.getD (i + 3) 0

/-- Big-endian 4-byte store sqlite3Put4byte: the four bytes of a u32 value,
most significant first.  The mod 256 reflects the (u8) truncation. -/
def put4 (v : Nat) : List Nat :=
  [v / 16777216 % 256, v / 65536 % 256, v / 256 % 256, v % 256]

/-- Header detection sqlcipherVfsReadHeader (crypto_vfs.c lines 57-105).
Returns the updated handle state and the function's return code, which the
source makes unconditionally SQLITE_OK (line 104).  The function performs no
underlying write: its result type carries no new underlying state.  In the
branch where the 36-byte read fails and the file is not empty, reserve_sz is
left at its prior value, exactly as the C leaves the field unassigned. -/
def sqlcipherVfsReadHeader {σ : Type} (ops : UnderOps σ) (s : σ)
    (file : SqlcipherVfsFile) : SqlcipherVfsFile × Int :=
  let f0 := { file with use_header := false, needs_write := false, did_read := false }
  let f1 :=
    match ops.xRead s SQLCIPHER_MIN_HDR_SZ 0 with
    | .ok magic =>
      if magic.take SQLCIPHER_MAGIC_SZ = sqlcipherMagicBytes then
        let f2 := { f0 with reserve_sz := get4 magic 32 }
        match ops.xRead s f2.reserve_sz 0 with
        | .ok header =>
          { f2 with version := get4 header 36, page_sz := get4 header 40,
                    kdf_iter := get4 header 44, fast_kdf_iter := get4 header 48,
                    flags := get4 header 52, use_header := true, did_read := true }
        | .error _ => f2
      else { f0 with reserve_sz := 0 }
    | .error _ =>
      if (ops.xFileSize s).1 = SQLITE_OK ∧ (ops.xFileSize s).2 = 0 then
        { f0 with reserve_sz := ops.xSectorSize s, needs_write := true }
      else f0
  (f1, SQLITE_OK)

/-- Byte content the header serialization prepares (crypto_vfs.c lines
110-116): magic at 0, then the six u32 fields big-endian at 32, 36, 40, 44,
48, 52.  Bytes past 56 model the remainder of the sqlcipher_malloc buffer;
the source does not explicitly initialize them and no claim depends on their
value, so they are taken as 0. -/
def encodeHeader (f : SqlcipherVfsFile) : List Nat :=
  sqlcipherMagicBytes ++ put4 f.reserve_sz ++ put4 f.version ++ put4 f.page_sz ++
    put4 f.kdf_iter ++ put4 f.fast_kdf_iter ++ put4 f.flags ++
    List.replicate (f.reserve_sz - 56) 0

/-- Field extraction performed on a header byte buffer: reserve at 32
(crypto_vfs.c line 71) and the five remaining u32 fields at 36-52 (lines
75-79), each via sqlite3Get4byte. -/
structure HeaderRecord where
  reserveSize : Nat
  version : Nat
  pageSize : Nat
  kdfIterations : Nat
  fastKdfIterations : Nat
  flags : Nat
deriving Repr, DecidableEq

/-- Decode of a header buffer at the offsets the source loads from. -/
def decodeHeaderFields (b : List Nat) : HeaderRecord :=
  ⟨get4 b 32, get4 b 36, get4 b 40, get4 b 44, get4 b 48, get4 b 52⟩

/-- Header persistence sqlcipherVfsWriteHeader (crypto_vfs.c lines 107-132):
writes reserve_sz bytes of the serialized header at real offset 0.  The
underlying write's failure is only traced; the function returns SQLITE_OK
regardless (line 131), and on failure the underlying file is unchanged. -/
def sqlcipherVfsWriteHeader {σ : Type} (ops : UnderOps σ) (s : σ)
    (f : SqlcipherVfsFile) : σ × Int :=
  match ops.xWrite s ((encodeHeader f).take f.reserve_sz) 0 with
  | .ok s1 => (s1, SQLITE_OK)
  | .error _ => (s, SQLITE_OK)

/-- Guard of the lazy header materialization (crypto_vfs.c line 154):
use_header and reserve_sz at least SQLCIPHER_MIN_HDR_SZ = 36 and offset 0 and
needs_write. -/
def headerWriteGuard (f : SqlcipherVfsFile) (ofst : Int) : Bool :=
  f.use_header && decide (SQLCIPHER_MIN_HDR_SZ ≤ f.reserve_sz) && decide (ofst = 0)
    && f.needs_write

/-- sqlcipherVfsRead (crypto_vfs.c lines 135-144): delegate at
iOfst + (use_header ? reserve_sz : 0). -/
def sqlcipherVfsRead {σ : Type} (ops : UnderOps σ) (s : σ) (f : SqlcipherVfsFile)
    (iAmt : Nat) (iOfst : Int) : Except Int (List Nat) :=
  ops.xRead s iAmt (iOfst + (if f.use_header then (f.reserve_sz : Int) else 0))

/-- sqlcipherVfsWrite (crypto_vfs.c lines 146-159): under headerWriteGuard,
first run sqlcipherVfsWriteHeader and clear needs_write — the source clears
the flag unconditionally, whether or not the header write succeeded — then
delegate the data write at iOfst + (use_header ? reserve_sz : 0).  Returns
the updated handle state, the updated underlying state and the data write's
result code. -/
def sqlcipherVfsWrite {σ : Type} (ops : UnderOps σ) (s : σ) (f : SqlcipherVfsFile)
    (zBuf : List Nat) (iOfst : Int) : SqlcipherVfsFile × σ × Int :=
  let fs :=
    if headerWriteGuard f iOfst then
      ({ f with needs_write := false }, (sqlcipherVfsWriteHeader ops s f).1)
    else (f, s)
  match ops.xWrite fs.2 zBuf (iOfst + (if fs.1.use_header then (fs.1.reserve_sz : Int) else 0)) with
  | .ok s2 => (fs.1, s2, SQLITE_OK)
  | .error e => (fs.1, fs.2, e)

/-- sqlcipherVfsTruncate (crypto_vfs.c lines 161-165): delegate at
size + (use_header ? reserve_sz : 0). -/
def sqlcipherVfsTruncate {σ : Type} (ops : UnderOps σ) (s : σ) (f : SqlcipherVfsFile)
    (size : Int) : Except Int σ :=
  ops.xTruncate s (size + (if f.use_header then (f.reserve_sz : Int) else 0))

/-- sqlcipherVfsFileSize (crypto_vfs.c lines 167-181): query the real size;
with use_header report rSize - reserve_sz floored at 0, otherwise rSize
unchanged; propagate the underlying return code in either case. -/
def sqlcipherVfsFileSize {σ : Type} (ops : UnderOps σ) (s : σ)
    (f : SqlcipherVfsFile) : Int × Int :=
  let r := ops.xFileSize s
  (r.1, if f.use_header then
          (if (f.reserve_sz : Int) ≤ r.2 then r.2 - (f.reserve_sz : Int) else 0)
        else r.2)

/-- sqlcipherVfsOpen (crypto_vfs.c lines 250-302) on the path where the
underlying xOpen has returned openRC and produced a usable handle: the method
table is wired, sqlcipherVfsReadHeader runs, its return value is discarded
(line 300), and the underlying open's rc is returned (line 301). -/
def sqlcipherVfsOpen {σ : Type} (ops : UnderOps σ) (s : σ) (openRC : Int)
    (file : SqlcipherVfsFile) : SqlcipherVfsFile × Int :=
  ((sqlcipherVfsReadHeader ops s file).1, openRC)

/-- Write of buf at byte offset ofst into a byte store, extending with zero
bytes when the store is shorter than ofst and keeping any suffix beyond the
written range. -/
def writeBytes (data : List Nat) (ofst : Nat) (buf : List Nat) : List Nat :=
  ((data ++ List.replicate (ofst - data.length) 0).take ofst) ++
    (buf ++ data.drop (ofst + buf.length))

/-- Concrete underlying file: a byte list plus the device sector size. -/
structure RealFile where
  data : List Nat
  sectorSize : Nat
deriving Repr, DecidableEq

/-- Byte-store instance of the underlying operations: reads succeed exactly
when the requested range lies inside the file, writes extend the file as
needed, sizes are exact. -/
def realOps : UnderOps RealFile where
  xRead s amt ofst :=
    if 0 ≤ ofst ∧ ofst.toNat + amt ≤ s.data.length then
      .ok ((s.data.drop ofst.toNat).take amt)
    else .error SQLITE_IOERR_SHORT_READ
  xWrite s buf ofst :=
    if 0 ≤ ofst then .ok ⟨writeBytes s.data ofst.toNat buf, s.sectorSize⟩
    else .error 10
  xTruncate s size :=
    if 0 ≤ size then .ok ⟨s.data.take size.toNat, s.sectorSize⟩ else .error 10
  xFileSize s := (SQLITE_OK, (s.data.length : Int))
  xSectorSize s := s.sectorSize

/-- Handle state with every field zero, as for a freshly allocated
sqlcipherVfs_file. -/
def zeroFile : SqlcipherVfsFile := ⟨false, false, false, 0, 0, 0, 0, 0, 0⟩

/-- Offsets of the four bytes a sqlite3Put4byte or sqlite3Get4byte at base k
touches. -/
def word4Offsets (k : Nat) : List Nat := [k, k + 1, k + 2, k + 3]

/-- Byte offsets sqlcipherVfsWriteHeader stores into its reserve_sz-byte
buffer (crypto_vfs.c lines 110-116): the memcpy of the 32-byte magic covers
0..31 and the six sqlite3Put4byte calls cover 32..55. -/
def writeHeaderStoreOffsets : List Nat :=
  List.range SQLCIPHER_MAGIC_SZ ++ word4Offsets 32 ++ word4Offsets 36 ++
    word4Offsets 40 ++ word4Offsets 44 ++ word4Offsets 48 ++ word4Offsets 52

/-- Byte offsets the full-header decode loads from its reserve_sz-byte buffer
(crypto_vfs.c lines 75-79): the five sqlite3Get4byte calls cover 36..55. -/
def readHeaderLoadOffsets : List Nat :=
  word4Offsets 36 ++ word4Offsets 40 ++ word4Offsets 44 ++ word4Offsets 48 ++
    word4Offsets 52

/-- Every offset in the list lies inside a buffer of n bytes. -/
def offsetsInBounds (n : Nat) (offs : List Nat) : Bool :=
  offs.all (fun o => decide (o < n))

/-- Handle state right after sqlcipherVfsOpen of an empty file (underlying
size 0) whose device sector size is 4096. -/
def c1OpenState : SqlcipherVfsFile :=
  (sqlcipherVfsReadHeader realOps ⟨[], 4096⟩ zeroFile).1

/-- Result of the first logical write on that handle: 100 bytes of value 7 at
logical offset 0. -/
def c1AfterWrite : SqlcipherVfsFile × RealFile × Int :=
  sqlcipherVfsWrite realOps ⟨[], 4096⟩ c1OpenState (List.replicate 100 7) 0

set_option maxRecDepth 8192 in
/-- C1: for an open of a file of underlying size 0 (sector size 4096),
the code sets reserve_sz to 4096 and needs_write to true but leaves
use_header FALSE, so the first write of 100 bytes at logical offset 0
performs no header write: the data lands at real offset 0, the real file
size becomes 100 (not 100 + 4096), and a reopen finds no magic and treats
the file as headerless — contradicting the claimed header materialization. -/
theorem c1_empty_file_header_never_materializes :
  c1OpenState.reserve_sz = 4096 ∧
  c1OpenState.needs_write = true ∧
  c1OpenState.use_header = false ∧
  c1AfterWrite.2.2 = SQLITE_OK ∧
  c1AfterWrite.2.1.data.length = 100 ∧
  c1AfterWrite.2.1.data.take 32 ≠ sqlcipherMagicBytes ∧
  (sqlcipherVfsReadHeader realOps c1AfterWrite.2.1 zeroFile).1.use_header = false := by
  decide

/-- C10: the header-write guard admits reserve_sz = 36, yet the header
serialization stores to offsets up to 55 of the 36-byte buffer, and the
full-header decode loads offsets up to 55 from a buffer whose length is the
reserve value read from the file itself (here a crafted file storing
reserveSize = 36) — out of bounds in both directions; the accesses are in
bounds only from 56 bytes up. -/
theorem c10_header_buffer_access_out_of_bounds :
  headerWriteGuard ⟨true, true, false, 36, 0, 0, 0, 0, 0⟩ 0 = true ∧
  offsetsInBounds 36 writeHeaderStoreOffsets = false ∧
  offsetsInBounds 36 readHeaderLoadOffsets = false ∧
  (sqlcipherVfsReadHeader realOps ⟨sqlcipherMagicBytes ++ put4 36, 512⟩ zeroFile).1.reserve_sz = 36 ∧
  (sqlcipherVfsReadHeader realOps ⟨sqlcipherMagicBytes ++ put4 36, 512⟩ zeroFile).1.use_header = true ∧
  offsetsInBounds 56 writeHeaderStoreOffsets = true ∧
  offsetsInBounds 56 readHeaderLoadOffsets = true := by
  decide

/-- Length of the zero-padded prefix writeBytes keeps before the written
range. -/
lemma writeBytes_prefix_length (d : List Nat) (o : Nat) :
    ((d ++ List.replicate (o - d.length) 0).take o).length = o := by
  simp only [List.length_take, List.length_append, List.length_replicate]
  omega

/-- Dropping a prefix whose length is n from an append removes it exactly. -/
lemma drop_append_of_length (l₁ l₂ : List Nat) (n : Nat) (h : l₁.length = n) :
    (l₁ ++ l₂).drop n = l₂ := by
  subst h; exact List.drop_left l₁ l₂

/-- Taking the length of the first part of an append yields it exactly. -/
lemma take_append_of_length (l₁ l₂ : List Nat) (n : Nat) (h : l₁.length = n) :
    (l₁ ++ l₂).take n = l₁ := by
  subst h; exact List.take_left l₁ l₂

/-- Reading back the bytes just written by writeBytes returns them. -/
lemma read_after_writeBytes (d : List Nat) (o : Nat) (b : List Nat) :
    ((writeBytes d o b).drop o).take b.length = b := by
  unfold writeBytes
  rw [drop_append_of_length _ _ _ (writeBytes_prefix_length d o),
      take_append_of_length _ _ _ rfl]

/-- A writeBytes result is at least long enough to contain the written
range. -/
lemma writeBytes_length_le (d : List Nat) (o : Nat) (b : List Nat) :
    o + b.length ≤ (writeBytes d o b).length := by
  unfold writeBytes
  simp only [List.length_append, writeBytes_prefix_length, List.length_drop]
  omega

/-- On the byte-store instance, a write at a nonnegative offset succeeds and
produces the spliced contents. -/
lemma realOps_xWrite_ok (s : RealFile) (buf : List Nat) (o : Int) (ho : 0 ≤ o) :
    realOps.xWrite s buf o = .ok ⟨writeBytes s.data o.toNat buf, s.sectorSize⟩ := by
  simp [realOps, ho]

/-- On the byte-store instance, reading back a just-written range returns the
written bytes. -/
lemma realOps_read_back (d : List Nat) (sec : Nat) (buf : List Nat) (o : Int)
    (ho : 0 ≤ o) :
    realOps.xRead ⟨writeBytes d o.toNat buf, sec⟩ buf.length o = .ok buf := by
  have hlen := writeBytes_length_le d o.toNat buf
  simp only [realOps]
  rw [if_pos ⟨ho, hlen⟩]
  exact congrArg Except.ok (read_after_writeBytes d o.toNat buf)

/-- C3: sqlcipherVfsFileSize propagates the underlying status code unchanged
and reports, with an active header, the real size minus reserve_sz floored at
0 — exactly 0 whenever the real size is below reserve_sz, never negative —
and with no header the real size unchanged. -/
theorem c3_file_size_floor :
  ∀ (σ : Type) (ops : UnderOps σ) (s : σ) (f : SqlcipherVfsFile),
    (sqlcipherVfsFileSize ops s f).1 = (ops.xFileSize s).1 ∧
    (f.use_header = true →
      (sqlcipherVfsFileSize ops s f).2 = max 0 ((ops.xFileSize s).2 - (f.reserve_sz : Int))) ∧
    (f.use_header = true → (ops.xFileSize s).2 < (f.reserve_sz : Int) →
      (sqlcipherVfsFileSize ops s f).2 = 0) ∧
    (f.use_header = true → 0 ≤ (sqlcipherVfsFileSize ops s f).2) ∧
    (f.use_header = false → (sqlcipherVfsFileSize ops s f).2 = (ops.xFileSize s).2) := by
  intro σ ops s f
  unfold sqlcipherVfsFileSize
  dsimp only
  refine ⟨rfl, ?_, ?_, ?_, ?_⟩ <;> intro h
  · rw [if_pos h]
    by_cases hc : (f.reserve_sz : Int) ≤ (ops.xFileSize s).2
    · rw [if_pos hc, max_eq_right (by omega)]
    · rw [if_neg hc, max_eq_left (by omega)]
  · intro hlt
    rw [if_pos h, if_neg (by omega)]
  · rw [if_pos h]
    split <;> omega
  · rw [if_neg (by simp [h])]

/-- Underlying file externally truncated to 100 bytes, far below the header
reserve. -/
def c3Shrunk : RealFile := ⟨List.replicate 100 0, 4096⟩

/-- Handle with a confirmed 4096-byte header. -/
def hdrFile4096 : SqlcipherVfsFile := ⟨true, false, false, 4096, 3, 1024, 64000, 2, 1⟩

/-- Witness for C3: a headered handle over a 100-byte underlying file reports
logical size 0. -/
theorem c3_file_size_floor_witness :
    (sqlcipherVfsFileSize realOps c3Shrunk hdrFile4096).2 = 0 :=
  (c3_file_size_floor RealFile realOps c3Shrunk hdrFile4096).2.2.1 rfl (by decide)

/-- C7: when the 36-byte read succeeds but the first 32 bytes are not the
magic, detection returns SQLITE_OK (no error), sets reserve_sz to 0 and
leaves use_header and needs_write false — and the embedding's result type
shows no underlying write can occur during detection — so every subsequent
read, truncate, write and size call on the handle passes through at zero
offset with the underlying file untouched by any header logic. -/
theorem c7_magic_mismatch_headerless :
  ∀ (σ : Type) (ops : UnderOps σ) (s : σ) (file : SqlcipherVfsFile) (bytes : List Nat),
    ops.xRead s SQLCIPHER_MIN_HDR_SZ 0 = .ok bytes →
    bytes.take SQLCIPHER_MAGIC_SZ ≠ sqlcipherMagicBytes →
    (sqlcipherVfsReadHeader ops s file).2 = SQLITE_OK ∧
    (sqlcipherVfsReadHeader ops s file).1.reserve_sz = 0 ∧
    (sqlcipherVfsReadHeader ops s file).1.use_header = false ∧
    (sqlcipherVfsReadHeader ops s file).1.needs_write = false ∧
    (∀ amt ofst, sqlcipherVfsRead ops s (sqlcipherVfsReadHeader ops s file).1 amt ofst =
      ops.xRead s amt ofst) ∧
    (∀ size, sqlcipherVfsTruncate ops s (sqlcipherVfsReadHeader ops s file).1 size =
      ops.xTruncate s size) ∧
    (∀ buf ofst, (sqlcipherVfsWrite ops s (sqlcipherVfsReadHeader ops s file).1 buf ofst).2 =
      (match ops.xWrite s buf ofst with
       | .ok s2 => (s2, SQLITE_OK)
       | .error e => (s, e))) ∧
    (sqlcipherVfsFileSize ops s (sqlcipherVfsReadHeader ops s file).1).2 =
      (ops.xFileSize s).2 := by
  intro σ ops s file bytes hr hm
  have hf : (sqlcipherVfsReadHeader ops s file).1 =
      { file with use_header := false, needs_write := false, did_read := false,
                  reserve_sz := 0 } := by
    simp only [sqlcipherVfsReadHeader, hr]
    rw [if_neg hm]
  refine ⟨rfl, by rw [hf], by rw [hf], by rw [hf], ?_, ?_, ?_, ?_⟩
  · intro amt ofst
    rw [hf]
    simp [sqlcipherVfsRead]
  · intro size
    rw [hf]
    simp [sqlcipherVfsTruncate]
  · intro buf ofst
    rw [hf]
    have hg : headerWriteGuard
        { file with use_header := false, needs_write := false, did_read := false,
                    reserve_sz := 0 } ofst = false := by
      simp [headerWriteGuard]
    simp only [sqlcipherVfsWrite, hg, Bool.false_eq_true, if_false]
    cases hx : ops.xWrite s buf ofst <;> simp [hx]
  · rw [hf]
    simp [sqlcipherVfsFileSize]

/-- Plain 40-byte file of ones: readable first 36 bytes, no magic. -/
def c7Plain : RealFile := ⟨List.replicate 40 1, 512⟩

/-- Witness for C7: opening the plain file yields reserve_sz 0 with
use_header false. -/
theorem c7_magic_mismatch_headerless_witness :
    (sqlcipherVfsReadHeader realOps c7Plain zeroFile).1.reserve_sz = 0 ∧
    (sqlcipherVfsReadHeader realOps c7Plain zeroFile).1.use_header = false :=
  ⟨(c7_magic_mismatch_headerless RealFile realOps c7Plain zeroFile
      (List.replicate 36 1) rfl (by decide)).2.1,
   (c7_magic_mismatch_headerless RealFile realOps c7Plain zeroFile
      (List.replicate 36 1) rfl (by decide)).2.2.1⟩

/-- C2: read, truncate and the data write delegate to the underlying
operation at iOfst plus reserve_sz exactly when use_header is set and at the
unshifted offset otherwise, with buffer, length and result untouched; and on
the byte store, a write through a handle with an active header followed by a
read of the same length at the same logical offset returns the written
bytes, for every logical offset at least 0. -/
theorem c2_offset_translation_roundtrip :
  (∀ (σ : Type) (ops : UnderOps σ) (s : σ) (f : SqlcipherVfsFile) (amt : Nat) (ofst : Int),
    sqlcipherVfsRead ops s f amt ofst =
      ops.xRead s amt (ofst + (if f.use_header then (f.reserve_sz : Int) else 0))) ∧
  (∀ (σ : Type) (ops : UnderOps σ) (s : σ) (f : SqlcipherVfsFile) (size : Int),
    sqlcipherVfsTruncate ops s f size =
      ops.xTruncate s (size + (if f.use_header then (f.reserve_sz : Int) else 0))) ∧
  (∀ (σ : Type) (ops : UnderOps σ) (s : σ) (f : SqlcipherVfsFile) (buf : List Nat) (ofst : Int),
    (sqlcipherVfsWrite ops s f buf ofst).2.2 =
      (match ops.xWrite
          (if headerWriteGuard f ofst then (sqlcipherVfsWriteHeader ops s f).1 else s)
          buf (ofst + (if f.use_header then (f.reserve_sz : Int) else 0)) with
       | .ok _ => SQLITE_OK
       | .error e => e)) ∧
  (∀ (s : RealFile) (f : SqlcipherVfsFile) (buf : List Nat) (ofst : Int),
    f.use_header = true → 0 ≤ ofst →
      sqlcipherVfsRead realOps (sqlcipherVfsWrite realOps s f buf ofst).2.1
        (sqlcipherVfsWrite realOps s f buf ofst).1 buf.length ofst = .ok buf) := by
  refine ⟨fun σ ops s f amt ofst => rfl, fun σ ops s f size => rfl, ?_, ?_⟩
  · intro σ ops s f buf ofst
    by_cases hg : headerWriteGuard f ofst = true
    · simp only [sqlcipherVfsWrite, hg, if_true]
      cases hx : ops.xWrite (sqlcipherVfsWriteHeader ops s f).1 buf
          (ofst + (if f.use_header then (f.reserve_sz : Int) else 0)) <;> simp [hx]
    · rw [Bool.not_eq_true] at hg
      simp only [sqlcipherVfsWrite, hg, Bool.false_eq_true, if_false]
      cases hx : ops.xWrite s buf
          (ofst + (if f.use_header then (f.reserve_sz : Int) else 0)) <;> simp [hx]
  · intro s f buf ofst hu ho
    have hshift : (0 : Int) ≤ ofst + (f.reserve_sz : Int) := by omega
    by_cases hg : headerWriteGuard f ofst = true
    · simp only [sqlcipherVfsWrite, hg, if_true, hu, ite_true]
      rw [realOps_xWrite_ok _ buf _ hshift]
      simp only [sqlcipherVfsRead, hu, ite_true]
      exact realOps_read_back _ _ buf (ofst + (f.reserve_sz : Int)) hshift
    · rw [Bool.not_eq_true] at hg
      simp only [sqlcipherVfsWrite, hg, Bool.false_eq_true, if_false, hu, ite_true]
      rw [realOps_xWrite_ok _ buf _ hshift]
      simp only [sqlcipherVfsRead, hu, ite_true]
      exact realOps_read_back _ _ buf (ofst + (f.reserve_sz : Int)) hshift

/-- Witness for C2: writing three bytes at logical offset 2 through a
4096-byte-header handle over an empty store and reading three bytes back at
logical offset 2 returns them. -/
theorem c2_offset_translation_roundtrip_witness :
    sqlcipherVfsRead realOps
      (sqlcipherVfsWrite realOps ⟨[], 4096⟩ hdrFile4096 [9, 8, 7] 2).2.1
      (sqlcipherVfsWrite realOps ⟨[], 4096⟩ hdrFile4096 [9, 8, 7] 2).1
      3 2 = .ok [9, 8, 7] :=
  c2_offset_translation_roundtrip.2.2.2 ⟨[], 4096⟩ hdrFile4096 [9, 8, 7] 2 rfl (by decide)

/-- Underlying file that records each successful write as an offset-buffer
pair, newest first, and fails any write at offset 0 with an I/O error. -/
def failAt0Ops : UnderOps (List (Int × List Nat)) where
  xRead _ _ _ := .error SQLITE_IOERR_SHORT_READ
  xWrite s buf ofst := if ofst = 0 then .error 10 else .ok ((ofst, buf) :: s)
  xTruncate s _ := .ok s
  xFileSize _ := (SQLITE_OK, 0)
  xSectorSize _ := 4096

/-- Handle of a fresh managed file with a 4096-byte header scheduled for
creation (use_header and needs_write set). -/
def pendingFile4096 : SqlcipherVfsFile := ⟨true, true, false, 4096, 3, 1024, 64000, 2, 1⟩

/-- Counterexample to C4: with the underlying write failing at offset 0, the
first logical write at offset 0 attempts the header write, which fails, yet
needs_write comes back false — the flag does NOT remain set for a retry —
while the data write still proceeds at real offset 4096 and reports its own
success. -/
theorem c4_counterexample_flag_cleared_on_failed_header_write :
    sqlcipherVfsWriteHeader failAt0Ops [] pendingFile4096 = ([], SQLITE_OK) ∧
    failAt0Ops.xWrite [] ((encodeHeader pendingFile4096).take 4096) 0 = .error 10 ∧
    (sqlcipherVfsWrite failAt0Ops [] pendingFile4096 [1, 2, 3] 0).1.needs_write = false ∧
    (sqlcipherVfsWrite failAt0Ops [] pendingFile4096 [1, 2, 3] 0).2.1 = [(4096, [1, 2, 3])] ∧
    (sqlcipherVfsWrite failAt0Ops [] pendingFile4096 [1, 2, 3] 0).2.2 = SQLITE_OK :=
  ⟨rfl, rfl, rfl, rfl, rfl⟩

/-- C4 amended: whenever the header-write guard holds, sqlcipherVfsWrite
clears needs_write regardless of whether the underlying header write
succeeded — no retry is scheduled after a failure — and the caller's data
write proceeds on the post-attempt underlying state at the shifted offset,
its result code reported independently. -/
theorem c4_flag_cleared_and_data_write_independent :
  ∀ (σ : Type) (ops : UnderOps σ) (s : σ) (f : SqlcipherVfsFile) (buf : List Nat) (ofst : Int),
    headerWriteGuard f ofst = true →
    (sqlcipherVfsWrite ops s f buf ofst).1.needs_write = false ∧
    (sqlcipherVfsWrite ops s f buf ofst).2.2 =
      (match ops.xWrite (sqlcipherVfsWriteHeader ops s f).1 buf
          (ofst + (if f.use_header then (f.reserve_sz : Int) else 0)) with
       | .ok _ => SQLITE_OK
       | .error e => e) := by
  intro σ ops s f buf ofst hg
  refine ⟨?_, ?_⟩ <;>
    simp only [sqlcipherVfsWrite, hg, if_true] <;>
    cases hx : ops.xWrite (sqlcipherVfsWriteHeader ops s f).1 buf
        (ofst + (if f.use_header then (f.reserve_sz : Int) else 0)) <;>
    simp [hx]

/-- Witness for C4 amended: the concrete failed header write leaves
needs_write cleared. -/
theorem c4_flag_cleared_and_data_write_independent_witness :
    (sqlcipherVfsWrite failAt0Ops [] pendingFile4096 [1, 2, 3] 0).1.needs_write = false :=
  (c4_flag_cleared_and_data_write_independent (List (Int × List Nat)) failAt0Ops []
      pendingFile4096 [1, 2, 3] 0 (by decide)).1

/-- Underlying file that records every successful write as an offset-buffer
pair, newest first; every operation succeeds. -/
def logOps : UnderOps (List (Int × List Nat)) where
  xRead _ _ _ := .error SQLITE_IOERR_SHORT_READ
  xWrite s buf ofst := .ok ((ofst, buf) :: s)
  xTruncate s _ := .ok s
  xFileSize _ := (SQLITE_OK, 0)
  xSectorSize _ := 4096

/-- Handle with an active header of only 40 bytes — below the 56 the claim
names — and a pending header write. -/
def pendingFile40 : SqlcipherVfsFile := ⟨true, true, false, 40, 0, 0, 0, 0, 0⟩

/-- Counterexample to C5: reserve_sz = 40 is below 56, yet a write at
logical offset 0 with needs_write set DOES invoke the header write — the
log records two underlying writes, the header at real offset 0 then the
data at real offset 40 — because the code's guard threshold is
SQLCIPHER_MIN_HDR_SZ = 36, not 56. -/
theorem c5_counterexample_threshold_is_36_not_56 :
    pendingFile40.reserve_sz < 56 ∧
    headerWriteGuard pendingFile40 0 = true ∧
    (sqlcipherVfsWrite logOps [] pendingFile40 [1, 2, 3] 0).2.1.map Prod.fst = [40, 0] :=
  ⟨by decide, by decide, rfl⟩

/-- C5 amended: the lazy header materialization is invoked exactly when
use_header is set, reserve_sz is at least SQLCIPHER_MIN_HDR_SZ = 36 (not
56), the logical offset is 0 and needs_write is set: on the logging store a
single shim write performs two underlying writes under this guard and one
otherwise. -/
theorem c5_header_write_guard_exactly_36 :
  ∀ (l : List (Int × List Nat)) (f : SqlcipherVfsFile) (buf : List Nat) (ofst : Int),
    (headerWriteGuard f ofst = true ↔
      (f.use_header = true ∧ SQLCIPHER_MIN_HDR_SZ ≤ f.reserve_sz ∧ ofst = 0 ∧
        f.needs_write = true)) ∧
    (sqlcipherVfsWrite logOps l f buf ofst).2.1.length =
      (if headerWriteGuard f ofst = true then l.length + 2 else l.length + 1) := by
  intro l f buf ofst
  constructor
  · simp [headerWriteGuard, and_assoc]
  · by_cases hg : headerWriteGuard f ofst = true
    · simp [sqlcipherVfsWrite, sqlcipherVfsWriteHeader, logOps, hg]
    · rw [Bool.not_eq_true] at hg
      simp [sqlcipherVfsWrite, logOps, hg]

/-- Underlying file whose 36-byte header read fails while its size query
reports 100 bytes: a nonzero-size file with an unreadable prefix. -/
def unreadableOps : UnderOps Unit where
  xRead _ _ _ := .error SQLITE_IOERR_SHORT_READ
  xWrite _ _ _ := .ok ()
  xTruncate _ _ := .ok ()
  xFileSize _ := (SQLITE_OK, 100)
  xSectorSize _ := 4096

/-- Counterexample to C6: on a nonzero-size file whose 36-byte read fails,
the open does NOT fail: sqlcipherVfsReadHeader returns SQLITE_OK and
sqlcipherVfsOpen returns the underlying open's own code — SQLITE_OK here —
so nothing surfaces to the caller. -/
theorem c6_counterexample_open_reports_ok :
    (sqlcipherVfsReadHeader unreadableOps () zeroFile).2 = SQLITE_OK ∧
    (sqlcipherVfsOpen unreadableOps () SQLITE_OK zeroFile).2 = SQLITE_OK ∧
    (sqlcipherVfsOpen unreadableOps () SQLITE_OK zeroFile).1.use_header = false :=
  ⟨rfl, rfl, rfl⟩

/-- C6 amended: in the unresolved branch — the 36-byte read fails and the
size query does not report an empty file — detection raises no error
(sqlcipherVfsReadHeader returns SQLITE_OK and open returns the underlying
open's code) and the handle is treated as headerless: use_header and
needs_write are false, so reads pass through unshifted, and reserve_sz
keeps the handle's prior field value, which shifted operations never
consult while use_header is false. -/
theorem c6_unresolved_branch_headerless_not_failure :
  ∀ (σ : Type) (ops : UnderOps σ) (s : σ) (file : SqlcipherVfsFile) (e openRC : Int),
    ops.xRead s SQLCIPHER_MIN_HDR_SZ 0 = .error e →
    ¬ ((ops.xFileSize s).1 = SQLITE_OK ∧ (ops.xFileSize s).2 = 0) →
    (sqlcipherVfsReadHeader ops s file).2 = SQLITE_OK ∧
    (sqlcipherVfsOpen ops s openRC file).2 = openRC ∧
    (sqlcipherVfsReadHeader ops s file).1.use_header = false ∧
    (sqlcipherVfsReadHeader ops s file).1.needs_write = false ∧
    (sqlcipherVfsReadHeader ops s file).1.reserve_sz = file.reserve_sz ∧
    (∀ amt ofst, sqlcipherVfsRead ops s (sqlcipherVfsReadHeader ops s file).1 amt ofst =
      ops.xRead s amt ofst) := by
  intro σ ops s file e openRC hr hnz
  have hf : (sqlcipherVfsReadHeader ops s file).1 =
      { file with use_header := false, needs_write := false, did_read := false } := by
    simp only [sqlcipherVfsReadHeader, hr]
    rw [if_neg hnz]
  exact ⟨rfl, rfl, by rw [hf], by rw [hf], by rw [hf],
    fun amt ofst => by rw [hf]; simp [sqlcipherVfsRead]⟩

/-- Witness for C6 amended: the concrete unreadable nonzero-size file opens
with the underlying open's code 5 passed through. -/
theorem c6_unresolved_branch_headerless_not_failure_witness :
    (sqlcipherVfsOpen unreadableOps () 5 zeroFile).2 = 5 :=
  (c6_unresolved_branch_headerless_not_failure Unit unreadableOps () zeroFile
      SQLITE_IOERR_SHORT_READ 5 rfl (by decide)).2.1

set_option maxHeartbeats 2000000 in
/-- C8: for valid field values (each below 2^32, reserve_sz at least 56) the
serialized header buffer has exactly reserve_sz bytes, carries the magic at
offset 0, and decoding it at the source's offsets — 32, 36, 40, 44, 48, 52,
big-endian — recovers all six numeric fields. -/
theorem c8_header_codec_roundtrip :
  ∀ f : SqlcipherVfsFile,
    56 ≤ f.reserve_sz →
    f.reserve_sz < 4294967296 → f.version < 4294967296 → f.page_sz < 4294967296 →
    f.kdf_iter < 4294967296 → f.fast_kdf_iter < 4294967296 → f.flags < 4294967296 →
    (encodeHeader f).take f.reserve_sz = encodeHeader f ∧
    (encodeHeader f).take SQLCIPHER_MAGIC_SZ = sqlcipherMagicBytes ∧
    decodeHeaderFields (encodeHeader f) =
      ⟨f.reserve_sz, f.version, f.page_sz, f.kdf_iter, f.fast_kdf_iter, f.flags⟩ := by
  intro f h56 h1 h2 h3 h4 h5 h6
  refine ⟨?_, rfl, ?_⟩
  · apply List.take_of_length_le
    simp [encodeHeader, put4, sqlcipherMagicBytes]
    omega
  · have e32 : get4 (encodeHeader f) 32 =
        f.reserve_sz / 16777216 % 256 * 16777216 + f.reserve_sz / 65536 % 256 * 65536 +
          f.reserve_sz / 256 % 256 * 256 + f.reserve_sz % 256 := rfl
    have e36 : get4 (encodeHeader f) 36 =
        f.version / 16777216 % 256 * 16777216 + f.version / 65536 % 256 * 65536 +
          f.version / 256 % 256 * 256 + f.version % 256 := rfl
    have e40 : get4 (encodeHeader f) 40 =
        f.page_sz / 16777216 % 256 * 16777216 + f.page_sz / 65536 % 256 * 65536 +
          f.page_sz / 256 % 256 * 256 + f.page_sz % 256 := rfl
    have e44 : get4 (encodeHeader f) 44 =
        f.kdf_iter / 16777216 % 256 * 16777216 + f.kdf_iter / 65536 % 256 * 65536 +
          f.kdf_iter / 256 % 256 * 256 + f.kdf_iter % 256 := rfl
    have e48 : get4 (encodeHeader f) 48 =
        f.fast_kdf_iter / 16777216 % 256 * 16777216 + f.fast_kdf_iter / 65536 % 256 * 65536 +
          f.fast_kdf_iter / 256 % 256 * 256 + f.fast_kdf_iter % 256 := rfl
    have e52 : get4 (encodeHeader f) 52 =
        f.flags / 16777216 % 256 * 16777216 + f.flags / 65536 % 256 * 65536 +
          f.flags / 256 % 256 * 256 + f.flags % 256 := rfl
    simp only [decodeHeaderFields, HeaderRecord.mk.injEq]
    refine ⟨?_, ?_, ?_, ?_, ?_, ?_⟩
    · rw [e32]; omega
    · rw [e36]; omega
    · rw [e40]; omega
    · rw [e44]; omega
    · rw [e48]; omega
    · rw [e52]; omega

/-- Sample header record with distinct valid field values. -/
def c8Sample : SqlcipherVfsFile := ⟨true, false, true, 4096, 2, 1024, 64000, 10, 5⟩

/-- Witness for C8: the sample record survives the encode-decode
round-trip. -/
theorem c8_header_codec_roundtrip_witness :
    decodeHeaderFields (encodeHeader c8Sample) = ⟨4096, 2, 1024, 64000, 10, 5⟩ :=
  (c8_header_codec_roundtrip c8Sample (by decide) (by decide) (by decide) (by decide)
    (by decide) (by decide) (by decide)).2.2

/-- Modelled from the spec: the process-wide provider registry the
registration entry point manipulates through sqlite3_vfs_find and
sqlite3_vfs_register, which live in this repository's SQLite core outside
src/.  The registry is the list of registered provider names, default
first.  sqlite3_vfs_find reports whether a provider of the given name is
currently registered. -/
def sqlite3_vfs_find (reg : List String) (zVfsName : String) : Bool :=
  decide (zVfsName ∈ reg)

/-- Modelled from the spec: sqlite3_vfs_register with makeDflt = 1 installs
the provider at the front of the registry (re-registering an existing
provider relinks it, never duplicating a name) and returns SQLITE_OK. -/
def sqlite3_vfs_register (reg : List String) (zVfsName : String) : List String :=
  zVfsName :: reg.filter (fun n => decide (n ≠ zVfsName))

/-- sqlcipherVfs_register (crypto_vfs.c lines 312-378) over the registry
model: if a provider named sqlcipher already exists, skip straight to
re-registering it; otherwise look up the underlying provider by name
(SQLITE_NOTFOUND when absent), allocate the shim structure (allocOk models
whether sqlite3_malloc succeeds, SQLITE_NOMEM when not), and register the
new provider as default. -/
def sqlcipherVfs_register (reg : List String) (allocOk : Bool) (zOldVfsName : String) :
    List String × Int :=
  if sqlite3_vfs_find reg "sqlcipher" then
    (sqlite3_vfs_register reg "sqlcipher", SQLITE_OK)
  else if sqlite3_vfs_find reg zOldVfsName then
    if allocOk then (sqlite3_vfs_register reg "sqlcipher", SQLITE_OK)
    else (reg, SQLITE_NOMEM)
  else (reg, SQLITE_NOTFOUND)

/-- Registering a name leaves exactly one entry of that name. -/
lemma count_sqlite3_vfs_register (reg : List String) (n : String) :
    (sqlite3_vfs_register reg n).count n = 1 := by
  unfold sqlite3_vfs_register
  rw [List.count_cons_self]
  have hnot : n ∉ reg.filter (fun m => decide (m ≠ n)) := by
    intro hmem
    simp [List.mem_filter] at hmem
  rw [List.count_eq_zero.mpr hnot]

/-- C9: registration fails with SQLITE_NOTFOUND, installing nothing, when
the named underlying provider is absent (and the shim is not yet
registered); fails with SQLITE_NOMEM when allocation fails; and after one
successful registration a second call succeeds again and leaves exactly one
provider named sqlcipher installed. -/
theorem c9_register_error_paths_and_idempotence :
  ∀ (reg : List String) (allocOk : Bool) (zOldVfsName : String),
    ("sqlcipher" ∉ reg → zOldVfsName ∉ reg →
      sqlcipherVfs_register reg allocOk zOldVfsName = (reg, SQLITE_NOTFOUND)) ∧
    ("sqlcipher" ∉ reg → zOldVfsName ∈ reg → allocOk = false →
      sqlcipherVfs_register reg allocOk zOldVfsName = (reg, SQLITE_NOMEM)) ∧
    ("sqlcipher" ∉ reg → zOldVfsName ∈ reg → allocOk = true →
      ((sqlcipherVfs_register reg allocOk zOldVfsName).2 = SQLITE_OK ∧
       (sqlcipherVfs_register (sqlcipherVfs_register reg allocOk zOldVfsName).1
          allocOk zOldVfsName).2 = SQLITE_OK ∧
       (sqlcipherVfs_register reg allocOk zOldVfsName).1.count "sqlcipher" = 1 ∧
       (sqlcipherVfs_register (sqlcipherVfs_register reg allocOk zOldVfsName).1
          allocOk zOldVfsName).1.count "sqlcipher" = 1)) := by
  intro reg allocOk zOld
  refine ⟨?_, ?_, ?_⟩
  · intro h1 h2
    simp [sqlcipherVfs_register, sqlite3_vfs_find, h1, h2]
  · intro h1 h2 h3
    simp [sqlcipherVfs_register, sqlite3_vfs_find, h1, h2, h3]
  · intro h1 h2 h3
    subst h3
    have hfind1 : sqlite3_vfs_find reg "sqlcipher" = false := by
      simp [sqlite3_vfs_find, h1]
    have hfind2 : sqlite3_vfs_find reg zOld = true := by
      simp [sqlite3_vfs_find, h2]
    have hfirst : sqlcipherVfs_register reg true zOld =
        (sqlite3_vfs_register reg "sqlcipher", SQLITE_OK) := by
      simp [sqlcipherVfs_register, hfind1, hfind2]
    have hfind3 : sqlite3_vfs_find (sqlite3_vfs_register reg "sqlcipher") "sqlcipher" = true := by
      simp [sqlite3_vfs_find, sqlite3_vfs_register]
    have hsecond : sqlcipherVfs_register (sqlite3_vfs_register reg "sqlcipher") true zOld =
        (sqlite3_vfs_register (sqlite3_vfs_register reg "sqlcipher") "sqlcipher",
          SQLITE_OK) := by
      simp [sqlcipherVfs_register, hfind3]
    rw [hfirst]
    dsimp only
    exact ⟨rfl, by rw [hsecond], count_sqlite3_vfs_register reg "sqlcipher",
      by rw [hsecond]; exact count_sqlite3_vfs_register _ "sqlcipher"⟩

/-- Witness for C9: registering over a registry holding only unix with a
missing underlying name reports SQLITE_NOTFOUND and installs nothing. -/
theorem c9_register_error_paths_and_idempotence_witness :
    sqlcipherVfs_register ["unix"] true "missing" = (["unix"], SQLITE_NOTFOUND) :=
  (c9_register_error_paths_and_idempotence ["unix"] true "missing").1
    (by decide) (by decide)
